import Mathlib

/-!
Verification development for the compliance-assessment analysis engine
(`src/lib/fraudAnalyzer.ts` and the weighted compliance-index computation in
`src/components/QuestionEditor.tsx`).

The TypeScript source is shallowly embedded: union-typed string fields become
inductives, optional fields become `Option`, JS arrays become `List`, the JS
`Map` built from the question list becomes a last-entry-wins lookup, and JS
`number` arithmetic on scores is modelled exactly over `Int`/`Rat`
(`Math.round x` is `⌊x + 1/2⌋`, which matches JS on all the rational values
arising here).  Engine-generated opaque finding ids (`Date.now()` plus a
random suffix) carry no information used anywhere; they are modelled by their
constant prefixes.
-/

namespace ComplianceIT

/-- The ternary answer value `'Ya' | 'Tidak'` (with `null`/`undefined`
modelled by `Option.none` at use sites). -/
inductive Answer where
  | ya
  | tidak
deriving DecidableEq, Repr

/-- The fixed aspect enumeration `'A' | 'B' | 'C' | 'D'`. -/
inductive AspectCategory where
  | A
  | B
  | C
  | D
deriving DecidableEq, Repr

/-- The one-letter code string of a category, as used in question ids. -/
def AspectCategory.code : AspectCategory → String
  | .A => "A"
  | .B => "B"
  | .C => "C"
  | .D => "D"

/-- The table `ASPECT_LABELS` from `types/assessment.ts`. -/
def ASPECT_LABELS : AspectCategory → String
  | .A => "Pengawasan Aktif Direksi & Dewan Komisaris"
  | .B => "Kecukupan Kebijakan & Prosedur TI"
  | .C => "Manajemen Risiko TI"
  | .D => "Pengendalian Internal & Audit"

/-- Finding/rule severity `'major' | 'minor'`. -/
inductive Severity where
  | major
  | minor
deriving DecidableEq, Repr

/-- The rule evidence condition `'empty' | 'Tidak'`
(spec names: `mustBeAbsentOrNegative` / `mustBeNegative`). -/
inductive EvidenceCondition where
  | empty
  | tidak
deriving DecidableEq, Repr

/-- Structure `Question` from `types/assessment.ts`.  `answer = none` models
`null`/`undefined`; `evidence = none` models an absent field. -/
structure Question where
  id : String
  category : AspectCategory
  parentId : Option String
  text : String
  isSubQuestion : Bool
  answer : Option Answer
  evidence : Option String
deriving DecidableEq, Repr

/-- Structure `FraudRule` from `types/assessment.ts`. -/
structure FraudRule where
  id : String
  name : String
  description : String
  conditionQuestionId : String
  conditionAnswer : Answer
  evidenceQuestionId : String
  evidenceCondition : EvidenceCondition
  severity : Severity
  fraudType : String
  cobitRef : Option String
deriving DecidableEq, Repr

/-- Structure `FraudFinding` from `types/assessment.ts` (the opaque generated `id` is
modelled by its constant prefix). -/
structure FraudFinding where
  id : String
  ruleId : String
  ruleName : String
  questionId : String
  questionText : String
  evidenceId : String
  evidenceText : String
  severity : Severity
  fraudType : String
  description : String
  cobitRef : Option String
deriving DecidableEq, Repr

/-- Structure `AspectScore` from `types/assessment.ts`. -/
structure AspectScore where
  aspect : AspectCategory
  aspectName : String
  totalQuestions : Nat
  answeredQuestions : Nat
  yesAnswers : Nat
  noAnswers : Nat
  complianceScore : Int
  findings : List FraudFinding
deriving DecidableEq, Repr

/-- Structure `AssessmentResult` from `types/assessment.ts`. -/
structure AssessmentResult where
  totalQuestions : Nat
  answeredQuestions : Nat
  consistentAnswers : Int
  inconsistentAnswers : Nat
  honestyScore : Int
  findings : List FraudFinding
  majorFindings : Nat
  minorFindings : Nat
  aspectScores : List AspectScore
deriving DecidableEq, Repr

/-- JS `String.prototype.startsWith`, on the character lists of the strings. -/
def jsStartsWith (s pre : String) : Bool :=
  pre.data.isPrefixOf s.data

/-- JS `Math.round` on an exact rational: round half toward positive
infinity. -/
def jsRound (x : ℚ) : Int :=
  ⌊x + 1 / 2⌋

/-- Lookup `questionMap.get`: the JS `Map` is built by inserting every question in
list order, so a duplicated id resolves to the last question carrying it. -/
def qget (qs : List Question) (i : String) : Option Question :=
  qs.reverse.find? (fun q => q.id == i)

/-- The finding pushed by the rule-matcher loop of `analyzeFraud`
(lines 33-47 of `fraudAnalyzer.ts`). -/
def mkRuleFinding (rule : FraudRule) (conditionQuestion evidenceQuestion : Question) :
    FraudFinding :=
  { id := "FIND"
    ruleId := rule.id
    ruleName := rule.name
    questionId := conditionQuestion.id
    questionText := conditionQuestion.text
    evidenceId := evidenceQuestion.id
    evidenceText := evidenceQuestion.text
    severity := rule.severity
    fraudType := rule.fraudType
    description := rule.description
    cobitRef := rule.cobitRef }

/-- One iteration of the rule-matcher loop of `analyzeFraud`
(lines 15-49 of `fraudAnalyzer.ts`): resolve both question ids, skip the rule
when either is missing, otherwise test the condition answer and the evidence
condition. -/
def evalRule (qs : List Question) (rule : FraudRule) : List FraudFinding :=
  match qget qs rule.conditionQuestionId, qget qs rule.evidenceQuestionId with
  | some conditionQuestion, some evidenceQuestion =>
    if conditionQuestion.answer == some rule.conditionAnswer then
      let isFraud : Bool :=
        match rule.evidenceCondition with
        | .empty =>
          evidenceQuestion.answer == none || evidenceQuestion.answer == some .tidak ||
            evidenceQuestion.evidence == none || evidenceQuestion.evidence == some ""
        | .tidak => evidenceQuestion.answer == some .tidak
      if isFraud then [mkRuleFinding rule conditionQuestion evidenceQuestion] else []
    else []
  | _, _ => []

/-- One entry of the fixed `crossValidationRules` table inside
`performCrossValidation`. -/
structure CrossRule where
  condId : String
  condAnswer : Answer
  evidId : String
  evidAnswer : Answer
  ruleName : String
  description : String
  severity : Severity
  fraudType : String
  cobitRef : String
deriving DecidableEq, Repr

/-- The fixed `crossValidationRules` table of `performCrossValidation`
(lines 111-232 of `fraudAnalyzer.ts`), in source order. -/
def crossValidationRules : List CrossRule :=
  [ { condId := "A.5", condAnswer := .ya, evidId := "A.8", evidAnswer := .tidak
      ruleName := "Komite TI Tanpa Dokumentasi Rapat"
      description := "Klaim memiliki Komite Pengarah TI tetapi tidak ada bukti pertemuan berkala yang terdokumentasi"
      severity := .major, fraudType := "Operasional Fiktif"
      cobitRef := "EDM05 - Ensured Stakeholder Engagement" }
  , { condId := "B.1", condAnswer := .ya, evidId := "B.2", evidAnswer := .tidak
      ruleName := "Kebijakan TI Tidak Direview"
      description := "Mengklaim memiliki kebijakan TI tetapi tidak pernah melakukan kaji ulang berkala"
      severity := .major, fraudType := "Inkonsistensi Kebijakan"
      cobitRef := "MEA01 - Managed Performance and Conformance" }
  , { condId := "B.6.5", condAnswer := .ya, evidId := "B.14", evidAnswer := .tidak
      ruleName := "Pengujian Tanpa Dokumentasi UAT"
      description := "Klaim melakukan pengujian tetapi tidak ada Berita Acara UAT yang ditandatangani"
      severity := .major, fraudType := "Bukti Tidak Memadai"
      cobitRef := "BAI03.07 - Prepare for Solution Testing" }
  , { condId := "B.35", condAnswer := .ya, evidId := "B.35.c", evidAnswer := .tidak
      ruleName := "Backup Tidak Pernah Diuji"
      description := "Mengklaim melakukan backup tetapi tidak pernah melakukan uji coba restore"
      severity := .major, fraudType := "Operasional Fiktif"
      cobitRef := "DSS04.03 - Develop and Implement a Business Continuity Response" }
  , { condId := "B.52", condAnswer := .ya, evidId := "B.59", evidAnswer := .tidak
      ruleName := "DRP Tidak Pernah Diuji"
      description := "Mengklaim memiliki DRP tetapi tidak pernah melakukan uji coba berkala"
      severity := .major, fraudType := "Operasional Fiktif"
      cobitRef := "DSS04.05 - Review, Maintain and Improve the Continuity Plan" }
  , { condId := "C.1", condAnswer := .ya, evidId := "C.4", evidAnswer := .tidak
      ruleName := "Manajemen Risiko Tanpa Risk Register"
      description := "Mengklaim memiliki manajemen risiko tetapi tidak ada proses identifikasi dan dokumentasi risiko"
      severity := .major, fraudType := "Bukti Tidak Memadai"
      cobitRef := "APO12.02 - Analyze Risk" }
  , { condId := "D.1", condAnswer := .ya, evidId := "D.7", evidAnswer := .tidak
      ruleName := "Pengendalian Internal Tanpa Audit"
      description := "Mengklaim memiliki pengendalian internal tetapi tidak ada audit internal yang dilaksanakan"
      severity := .major, fraudType := "Inkonsistensi Kebijakan"
      cobitRef := "MEA04 - Managed Assurance" }
  , { condId := "B.46", condAnswer := .ya, evidId := "B.46.c", evidAnswer := .tidak
      ruleName := "Access Control Tanpa Review Berkala"
      description := "Mengklaim menerapkan access control tetapi tidak melakukan user access review"
      severity := .minor, fraudType := "Inkonsistensi Kebijakan"
      cobitRef := "DSS05 - Managed Security Services" }
  , { condId := "A.2.d", condAnswer := .ya, evidId := "A.2.d.c", evidAnswer := .tidak
      ruleName := "Kompetensi SDM Tanpa Realisasi Pelatihan"
      description := "Mengklaim memastikan kompetensi SDM TI tetapi anggaran pelatihan tidak terealisasi"
      severity := .minor, fraudType := "Operasional Fiktif"
      cobitRef := "APO07 - Managed Human Resources" }
  , { condId := "B.23", condAnswer := .ya, evidId := "B.23.b", evidAnswer := .tidak
      ruleName := "SLA Tanpa Klausul Penalti"
      description := "Mengklaim memiliki SLA tetapi tidak ada klausul penalti untuk vendor"
      severity := .minor, fraudType := "Bukti Tidak Memadai"
      cobitRef := "APO10.03 - Manage Vendor Relationships" } ]

/-- One iteration of the static cross-validation loop
(lines 234-253 of `fraudAnalyzer.ts`): the pair fires only under exact
equality of both resolved answers with the paired values. -/
def evalCrossRule (qs : List Question) (r : CrossRule) : List FraudFinding :=
  match qget qs r.condId, qget qs r.evidId with
  | some condQ, some evidQ =>
    if condQ.answer == some r.condAnswer && evidQ.answer == some r.evidAnswer then
      [ { id := "CROSS"
          ruleId := "CROSS_" ++ r.condId ++ "_" ++ r.evidId
          ruleName := r.ruleName
          questionId := r.condId
          questionText := condQ.text
          evidenceId := r.evidId
          evidenceText := evidQ.text
          severity := r.severity
          fraudType := r.fraudType
          description := r.description
          cobitRef := some r.cobitRef } ]
    else []
  | _, _ => []

/-- One iteration of the structural pattern-detector loop
(lines 260-281 of `fraudAnalyzer.ts`), for one main question against the
sub-question list: fire when the main answer is `Ya`, there are related
sub-questions, all of them answer `Tidak`, and there are at least two. -/
def patternForMain (subQuestions : List Question) (mainQ : Question) : List FraudFinding :=
  if mainQ.answer == some .ya then
    let relatedSubs := subQuestions.filter (fun sq => sq.parentId == some mainQ.id)
    let allSubsNo := decide (0 < relatedSubs.length) &&
      relatedSubs.all (fun sq => sq.answer == some .tidak)
    if allSubsNo && decide (2 ≤ relatedSubs.length) then
      [ { id := "PATTERN"
          ruleId := "PATTERN_MAIN_YES_SUBS_NO_" ++ mainQ.id
          ruleName := "Pola Inkonsistensi Jawaban"
          questionId := mainQ.id
          questionText := mainQ.text
          evidenceId := ((relatedSubs.head?).map (fun sq => sq.id)).getD ""
          evidenceText := "Semua " ++ toString relatedSubs.length ++
            " sub-pertanyaan dijawab \"Tidak\""
          severity := .major
          fraudType := "Manipulasi Administratif"
          description := "Jawaban utama \"Ya\" tetapi semua " ++ toString relatedSubs.length ++
            " sub-pertanyaan dijawab \"Tidak\" - menunjukkan kemungkinan manipulasi jawaban"
          cobitRef := some "MEA02 - Managed System of Internal Control" } ]
    else []
  else []

/-- Function `performCrossValidation` (lines 107-284 of `fraudAnalyzer.ts`): the static
semantic pass followed by the structural pattern detector. -/
def performCrossValidation (qs : List Question) : List FraudFinding :=
  let staticFindings := crossValidationRules.flatMap (evalCrossRule qs)
  let mainQuestions := qs.filter (fun q => !q.isSubQuestion)
  let subQuestions := qs.filter (fun q => q.isSubQuestion)
  staticFindings ++ mainQuestions.flatMap (patternForMain subQuestions)

/-- The guarded compliance percentage of lines 67-69 of `fraudAnalyzer.ts`:
`Math.round(yes / answered * 100)` when anything is answered, else `0`. -/
def aspectComplianceScore (yesAnswers answeredLen : Nat) : Int :=
  if 0 < answeredLen then
    jsRound ((yesAnswers : ℚ) / (answeredLen : ℚ) * 100)
  else 0

/-- The aspect-score computation of `analyzeFraud`
(lines 56-81 of `fraudAnalyzer.ts`) for one aspect. -/
def aspectScoreFor (qs : List Question) (findings : List FraudFinding)
    (aspect : AspectCategory) : AspectScore :=
  let aspectQuestions := qs.filter (fun q => q.category == aspect && !q.isSubQuestion)
  let answered := aspectQuestions.filter (fun q => q.answer != none)
  let yesAnswers := (answered.filter (fun q => q.answer == some .ya)).length
  let noAnswers := (answered.filter (fun q => q.answer == some .tidak)).length
  let aspectFindings := findings.filter (fun f =>
    match qget qs f.questionId with
    | some q => q.category == aspect
    | none => false)
  let complianceScore : Int := aspectComplianceScore yesAnswers answered.length
  { aspect := aspect
    aspectName := ASPECT_LABELS aspect
    totalQuestions := aspectQuestions.length
    answeredQuestions := answered.length
    yesAnswers := yesAnswers
    noAnswers := noAnswers
    complianceScore := complianceScore
    findings := aspectFindings }

/-- The score-calculation tail of `analyzeFraud`
(lines 84-103 of `fraudAnalyzer.ts`), as a function of the question list and
the full finding list. -/
def buildResult (questions : List Question) (findings : List FraudFinding) :
    AssessmentResult :=
  let answeredQuestions := questions.filter (fun q => q.answer != none)
  let totalQuestions := (questions.filter (fun q => !(jsStartsWith q.id "DP"))).length
  let aspects : List AspectCategory := [.A, .B, .C, .D]
  let aspectScores := aspects.map (aspectScoreFor questions findings)
  let majorFindings := (findings.filter (fun f => f.severity == .major)).length
  let minorFindings := (findings.filter (fun f => f.severity == .minor)).length
  let penalty := majorFindings * 10 + minorFindings * 3
  let honestyScore : Int := max 0 (100 - (penalty : Int))
  let inconsistentAnswers := findings.length
  let consistentAnswers : Int :=
    max 0 ((answeredQuestions.length : Int) - (inconsistentAnswers : Int))
  { totalQuestions := totalQuestions
    answeredQuestions := answeredQuestions.length
    consistentAnswers := consistentAnswers
    inconsistentAnswers := inconsistentAnswers
    honestyScore := honestyScore
    findings := findings
    majorFindings := majorFindings
    minorFindings := minorFindings
    aspectScores := aspectScores }

/-- Function `analyzeFraud` (lines 3-104 of `fraudAnalyzer.ts`): the rule matcher
followed by cross-validation, then aggregation and scoring. -/
def analyzeFraud (questions : List Question) (rules : List FraudRule) :
    AssessmentResult :=
  buildResult questions
    (rules.flatMap (evalRule questions) ++ performCrossValidation questions)

/-- The severity-penalty honesty score of lines 84-88 of `fraudAnalyzer.ts`,
as a function of a finding list. -/
def honestyScoreOf (findings : List FraudFinding) : Int :=
  let majorFindings := (findings.filter (fun f => f.severity == .major)).length
  let minorFindings := (findings.filter (fun f => f.severity == .minor)).length
  max 0 (100 - ((majorFindings * 10 + minorFindings * 3 : Nat) : Int))

/-- The weighted compliance-index computation of `QuestionEditor.tsx`
(lines 681-689): `answeredQuestions || 1` floors the denominator base at 1. -/
def complianceIndex (result : AssessmentResult) : Int :=
  let majorWeight : Nat := 3
  let minorWeight : Nat := 1
  let totalAnswered : Nat :=
    if result.answeredQuestions == 0 then 1 else result.answeredQuestions
  let weightedDeduction : Nat :=
    result.majorFindings * majorWeight + result.minorFindings * minorWeight
  let maxPossibleDeduction : Nat := totalAnswered * majorWeight
  max 0 (jsRound ((100 : ℚ) -
    ((weightedDeduction : ℚ) / (maxPossibleDeduction : ℚ)) * 100))

/-! ### Helper lemmas about the exact-rational rounding -/

lemma jsRound_intCast_div (p : ℤ) (d : ℕ) (hd : 0 < d) :
    jsRound ((p : ℚ) / (d : ℚ)) = (2 * p + d) / (2 * (d : ℤ)) := by
  have hd0 : ((d : ℚ)) ≠ 0 := Nat.cast_ne_zero.mpr hd.ne'
  have h1 : (p : ℚ) / (d : ℚ) + 1 / 2 = ((2 * p + (d : ℤ) : ℤ) : ℚ) / (((2 * d : ℕ)) : ℚ) := by
    push_cast
    field_simp
    ring
  rw [jsRound, h1, Rat.floor_intCast_div_natCast]
  push_cast
  ring_nf

/-- Modelled from the spec: the per-category compliance percentage
`round(affirmative / answered * 100)`, as a closed-form natural-number
computation (round half up). -/
def specRoundPct (yes answered : Nat) : Nat :=
  (200 * yes + answered) / (2 * answered)

lemma jsRound_pct (yes ans : Nat) (h : 0 < ans) :
    jsRound ((yes : ℚ) / (ans : ℚ) * 100) = (specRoundPct yes ans : Int) := by
  have h1 : (yes : ℚ) / (ans : ℚ) * 100 = (((100 * yes : ℕ) : ℤ) : ℚ) / ((ans : ℕ) : ℚ) := by
    push_cast
    ring
  rw [h1, jsRound_intCast_div _ _ h, specRoundPct]
  push_cast
  congr 1
  ring

/-- Modelled from the spec: the weighted-deduction compliance index
`max(0, round(100 - weightedDeduction / maxPossibleDeduction * 100))` with
the answered count floored at 1, as a closed-form integer computation. -/
def specComplianceIndex (major minor answered : Nat) : Int :=
  let answeredFloored : Int := max (answered : Int) 1
  let weightedDeduction : Int := major * 3 + minor * 1
  let maxPossibleDeduction : Int := answeredFloored * 3
  max 0 ((201 * maxPossibleDeduction - 200 * weightedDeduction) / (2 * maxPossibleDeduction))

lemma complianceIndex_core (wd t : ℕ) (ht : 0 < t) :
    max 0 (jsRound ((100 : ℚ) - ((wd : ℚ) / (((t * 3 : ℕ)) : ℚ)) * 100)) =
      max 0 ((201 * ((t : ℤ) * 3) - 200 * (wd : ℤ)) / (2 * ((t : ℤ) * 3))) := by
  have hd : 0 < t * 3 := by omega
  have hd0 : (((t * 3 : ℕ)) : ℚ) ≠ 0 := Nat.cast_ne_zero.mpr hd.ne'
  have h1 : (100 : ℚ) - ((wd : ℚ) / (((t * 3 : ℕ)) : ℚ)) * 100 =
      (((100 * ((t : ℤ) * 3) - 100 * (wd : ℤ)) : ℤ) : ℚ) / (((t * 3 : ℕ)) : ℚ) := by
    push_cast
    field_simp
    ring
  rw [h1, jsRound_intCast_div _ _ hd]
  push_cast
  ring_nf

/-! ### The concrete two-question scenario used by the spec -/

/-- The question `{id: "A.5", category: "A", answer: "Ya"}` of the concrete
spec scenario. -/
def specQ1 : Question := ⟨"A.5", .A, none, "", false, some .ya, none⟩

/-- The question `{id: "A.8", category: "A", answer: "Tidak"}` of the concrete
spec scenario. -/
def specQ2 : Question := ⟨"A.8", .A, none, "", false, some .tidak, none⟩

/-! ### Claim theorems -/

/-- C4: the returned `honestyScore` is `max(0, 100 - (major*10 + minor*3))`
where `majorFindings`/`minorFindings` partition the returned finding list by
severity, and on the concrete two-question input `{A.5 = Ya, A.8 = Tidak}`
with no caller rules, `analyzeFraud` returns exactly 1 finding,
`majorFindings = 1`, `honestyScore = 90`, `answeredQuestions = 2`. -/
theorem c4_penalty_score :
    (∀ (qs : List Question) (rules : List FraudRule),
      (analyzeFraud qs rules).honestyScore =
        max 0 (100 -
          ((((analyzeFraud qs rules).findings.filter (fun f => f.severity == .major)).length * 10 +
            ((analyzeFraud qs rules).findings.filter (fun f => f.severity == .minor)).length * 3 : Nat) : Int))
      ∧ (analyzeFraud qs rules).majorFindings =
          ((analyzeFraud qs rules).findings.filter (fun f => f.severity == .major)).length
      ∧ (analyzeFraud qs rules).minorFindings =
          ((analyzeFraud qs rules).findings.filter (fun f => f.severity == .minor)).length)
    ∧ ((analyzeFraud [specQ1, specQ2] []).findings.length = 1
      ∧ (analyzeFraud [specQ1, specQ2] []).majorFindings = 1
      ∧ (analyzeFraud [specQ1, specQ2] []).honestyScore = 90
      ∧ (analyzeFraud [specQ1, specQ2] []).answeredQuestions = 2) :=
  ⟨fun _ _ => ⟨rfl, rfl, rfl⟩, by decide⟩

/-- C9: adding one more major-severity finding to a fixed finding set never
increases the penalty-based honesty score. -/
theorem c9_score_monotone (f : FraudFinding) (fs : List FraudFinding)
    (h : f.severity = .major) :
    honestyScoreOf (f :: fs) ≤ honestyScoreOf fs := by
  unfold honestyScoreOf
  rw [List.filter_cons, List.filter_cons, h]
  simp only [show (Severity.major == Severity.major) = true from rfl,
    show (Severity.major == Severity.minor) = false from rfl, if_true, if_false,
    List.length_cons]
  apply max_le_max le_rfl
  push_cast
  omega

/-- C9 witness: a concrete major finding applied to the empty finding set. -/
theorem c9_score_monotone_witness :
    (⟨"FIND", "R", "r", "A.1", "", "A.2", "", Severity.major, "t", "d", none⟩ :
      FraudFinding).severity = .major ∧
    honestyScoreOf [⟨"FIND", "R", "r", "A.1", "", "A.2", "", Severity.major, "t", "d", none⟩] ≤
      honestyScoreOf [] :=
  ⟨rfl, c9_score_monotone _ [] rfl⟩

/-- The DP-prefixed answered question witnessing that `answeredQuestions` can
exceed `totalQuestions`. -/
def dpQuestion : Question := ⟨"DP.1", .A, none, "", false, some .ya, none⟩

/-- C10: `totalQuestions` counts exactly the questions whose id does not start
with "DP" (sub-questions included, answered or not), `answeredQuestions`
counts every question with a non-null answer regardless of id prefix, and on
a DP-only answered input `answeredQuestions` exceeds `totalQuestions`. -/
theorem c10_dp_counting :
    (∀ (qs : List Question) (rules : List FraudRule),
      (analyzeFraud qs rules).totalQuestions =
        (qs.filter (fun q => !(jsStartsWith q.id "DP"))).length
      ∧ (analyzeFraud qs rules).answeredQuestions =
        (qs.filter (fun q => q.answer != none)).length)
    ∧ ((analyzeFraud [dpQuestion] []).totalQuestions = 0
      ∧ (analyzeFraud [dpQuestion] []).answeredQuestions = 1
      ∧ (analyzeFraud [dpQuestion] []).totalQuestions <
          (analyzeFraud [dpQuestion] []).answeredQuestions) :=
  ⟨fun _ _ => ⟨rfl, rfl⟩, by decide⟩

/-- C8: the weighted-deduction compliance index equals
`max(0, round(100 - weightedDeduction/maxPossibleDeduction*100))` with
`weightedDeduction = major*3 + minor*1`, `maxPossibleDeduction = answered*3`
and the answered count floored at 1 (so the division is never by zero);
on the concrete spec scenario it evaluates to 50. -/
theorem c8_weighted_deduction :
    (∀ result : AssessmentResult,
      complianceIndex result =
        specComplianceIndex result.majorFindings result.minorFindings result.answeredQuestions)
    ∧ complianceIndex (analyzeFraud [specQ1, specQ2] []) = 50 := by
  have hgen : ∀ result : AssessmentResult,
      complianceIndex result =
        specComplianceIndex result.majorFindings result.minorFindings
          result.answeredQuestions := by
    intro result
    unfold complianceIndex specComplianceIndex
    by_cases h : result.answeredQuestions = 0
    · rw [h]
      have h1 := complianceIndex_core
        (result.majorFindings * 3 + result.minorFindings * 1) 1 (by omega)
      simp only [Nat.cast_ofNat, Nat.cast_zero] at h1 ⊢
      simpa using h1
    · have hb : (result.answeredQuestions == 0) = false := by
        simp [h]
      rw [hb]
      have h1 := complianceIndex_core
        (result.majorFindings * 3 + result.minorFindings * 1) result.answeredQuestions
        (by omega)
      have hmax : max ((result.answeredQuestions : Int)) 1 = (result.answeredQuestions : Int) := by
        omega
      simp only [if_false, hmax]
      simpa using h1
  refine ⟨hgen, ?_⟩
  rw [hgen]
  decide

/-- Modelled from the spec: when an evidence expectation fails.
`mustBeAbsentOrNegative` (code `empty`) fails when the evidence answer is
negative, or unanswered, or the evidence field is empty or absent;
`mustBeNegative` (code `Tidak`) fails only when the evidence answer is
negative. -/
def specEvidenceFails : EvidenceCondition → Question → Bool
  | .empty, q =>
    q.answer == some .tidak || q.answer == none || q.evidence == none || q.evidence == some ""
  | .tidak, q => q.answer == some .tidak

lemma evalRule_resolved (qs : List Question) (r : FraudRule) (cq eqq : Question)
    (h1 : qget qs r.conditionQuestionId = some cq)
    (h2 : qget qs r.evidenceQuestionId = some eqq) :
    evalRule qs r =
      if cq.answer == some r.conditionAnswer && specEvidenceFails r.evidenceCondition eqq then
        [mkRuleFinding r cq eqq]
      else [] := by
  unfold evalRule
  rw [h1, h2]
  cases hEC : r.evidenceCondition <;>
    cases hc : (cq.answer == some r.conditionAnswer) <;>
      simp [specEvidenceFails, hc, Bool.or_comm, Bool.or_left_comm, Bool.or_assoc]

/-- C1: when both rule references resolve, the Rule Matcher emits a finding
for the rule exactly when the condition answer matches and the evidence
question fails its expectation, at most one finding per rule, and each
emitted finding references the rule id. -/
theorem c1_rule_matcher (qs : List Question) (r : FraudRule) (cq eqq : Question)
    (h1 : qget qs r.conditionQuestionId = some cq)
    (h2 : qget qs r.evidenceQuestionId = some eqq) :
    (evalRule qs r ≠ [] ↔
      (cq.answer = some r.conditionAnswer ∧ specEvidenceFails r.evidenceCondition eqq = true))
    ∧ (evalRule qs r).length ≤ 1
    ∧ ∀ f ∈ evalRule qs r, f.ruleId = r.id := by
  have he := evalRule_resolved qs r cq eqq h1 h2
  refine ⟨?_, ?_, ?_⟩
  · rw [he]
    split <;> simp_all
  · rw [he]
    split <;> simp
  · rw [he]
    split <;> simp [mkRuleFinding]

/-- The concrete rule `{cond A.1 = Ya, evidence A.2 mustBeAbsentOrNegative}`
from the spec scenario. -/
def wRule : FraudRule :=
  ⟨"R1", "Rule", "", "A.1", .ya, "A.2", .empty, .major, "Operasional Fiktif", none⟩

/-- The question `A.1 = Ya` of the rule-matcher scenario. -/
def wA1 : Question := ⟨"A.1", .A, none, "", false, some .ya, none⟩

/-- The question `A.2 = Tidak` of the rule-matcher scenario. -/
def wA2 : Question := ⟨"A.2", .A, none, "", false, some .tidak, none⟩

/-- C1 witness: the spec scenario rule on `A.1 = Ya`, `A.2 = Tidak`. -/
theorem c1_rule_matcher_witness :
    qget [wA1, wA2] wRule.conditionQuestionId = some wA1 ∧
    qget [wA1, wA2] wRule.evidenceQuestionId = some wA2 ∧
    (evalRule [wA1, wA2] wRule ≠ [] ↔
      (wA1.answer = some wRule.conditionAnswer ∧
        specEvidenceFails wRule.evidenceCondition wA2 = true)) :=
  ⟨by decide, by decide,
    (c1_rule_matcher [wA1, wA2] wRule wA1 wA2 (by decide) (by decide)).1⟩

/-- C5: a static cross-validation pair fires exactly when both named
questions resolve and both answers exactly equal the paired values; at most
one finding per pair, and an unanswered evidence question never fires. -/
theorem c5_static_cross (qs : List Question) (r : CrossRule)
    (_hr : r ∈ crossValidationRules) :
    (evalCrossRule qs r ≠ [] ↔
      ∃ cq eqq, qget qs r.condId = some cq ∧ qget qs r.evidId = some eqq ∧
        cq.answer = some r.condAnswer ∧ eqq.answer = some r.evidAnswer)
    ∧ (evalCrossRule qs r).length ≤ 1
    ∧ ∀ eqq, qget qs r.evidId = some eqq → eqq.answer = none →
        evalCrossRule qs r = [] := by
  unfold evalCrossRule
  cases hc : qget qs r.condId <;> cases he : qget qs r.evidId <;>
    refine ⟨?_, ?_, ?_⟩ <;>
      (try split) <;> (try split) <;> simp_all

/-- The first entry of the static cross-validation table. -/
def wCross : CrossRule :=
  { condId := "A.5", condAnswer := .ya, evidId := "A.8", evidAnswer := .tidak
    ruleName := "Komite TI Tanpa Dokumentasi Rapat"
    description := "Klaim memiliki Komite Pengarah TI tetapi tidak ada bukti pertemuan berkala yang terdokumentasi"
    severity := .major, fraudType := "Operasional Fiktif"
    cobitRef := "EDM05 - Ensured Stakeholder Engagement" }

/-- C5 witness: the first table entry on the concrete spec scenario. -/
theorem c5_static_cross_witness :
    wCross ∈ crossValidationRules ∧ (evalCrossRule [specQ1, specQ2] wCross).length ≤ 1 :=
  ⟨by decide, (c5_static_cross [specQ1, specQ2] wCross (by decide)).2.1⟩

/-- C6: a rule whose condition or evidence question id does not resolve emits
no finding and is silently skipped: removing it from the rule list leaves the
whole analysis result unchanged. -/
theorem c6_unresolved_rule (qs : List Question) (r : FraudRule)
    (pre post : List FraudRule)
    (h : qget qs r.conditionQuestionId = none ∨ qget qs r.evidenceQuestionId = none) :
    evalRule qs r = [] ∧
      analyzeFraud qs (pre ++ r :: post) = analyzeFraud qs (pre ++ post) := by
  have hskip : evalRule qs r = [] := by
    rcases h with h | h
    · cases he : qget qs r.evidenceQuestionId <;> simp [evalRule, h, he]
    · cases hc : qget qs r.conditionQuestionId <;> simp [evalRule, h, hc]
  refine ⟨hskip, ?_⟩
  unfold analyzeFraud
  congr 1
  simp [hskip]

/-- A rule whose referenced question ids resolve in no question set used by
the C6 witness. -/
def wBadRule : FraudRule :=
  ⟨"RX", "Missing refs", "", "X.1", .ya, "X.2", .empty, .major, "Operasional Fiktif", none⟩

/-- C6 witness: an unresolvable rule on the empty question set. -/
theorem c6_unresolved_rule_witness :
    (qget [] wBadRule.conditionQuestionId = none ∨
      qget [] wBadRule.evidenceQuestionId = none) ∧
    evalRule [] wBadRule = [] ∧
    analyzeFraud [] [wBadRule] = analyzeFraud [] [] :=
  ⟨Or.inl rfl, c6_unresolved_rule [] wBadRule [] [] (Or.inl rfl)⟩

/-- C2: for a top-level question of the batch, the structural pattern
detector fires exactly when the question is answered `Ya`, it has at least
two direct sub-questions, and all of them are answered `Tidak`; it emits at
most one finding, the finding is major, and it lands in the cross-validator
output. -/
lemma patternForMain_fires_iff (subs : List Question) (mq : Question) :
    patternForMain subs mq ≠ [] ↔
      (mq.answer = some Answer.ya ∧
        2 ≤ (subs.filter (fun sq => sq.parentId == some mq.id)).length ∧
        ∀ sq ∈ subs.filter (fun sq => sq.parentId == some mq.id),
          sq.answer = some Answer.tidak) := by
  simp only [patternForMain]
  split
  case isTrue h1 =>
    split
    case isTrue h2 =>
      simp only [Bool.and_eq_true, decide_eq_true_eq, List.all_eq_true] at h2
      constructor
      · intro _
        refine ⟨by simpa using h1, h2.2, ?_⟩
        intro sq hsq
        simpa using h2.1.2 sq hsq
      · intro _
        simp
    case isFalse h2 =>
      simp only [Bool.and_eq_true, decide_eq_true_eq, List.all_eq_true] at h2
      constructor
      · intro h
        exact absurd rfl h
      · rintro ⟨hya, hlen, hall⟩
        exact absurd ⟨⟨by omega, fun sq hsq => by simp [hall sq hsq]⟩, hlen⟩ h2
  case isFalse h1 =>
    have hne : ¬ mq.answer = some Answer.ya := by simpa using h1
    simp [hne]

lemma patternForMain_length_le (subs : List Question) (mq : Question) :
    (patternForMain subs mq).length ≤ 1 := by
  simp only [patternForMain]
  split
  · split
    · simp
    · simp
  · simp

lemma patternForMain_severity (subs : List Question) (mq : Question)
    (f : FraudFinding) (hf : f ∈ patternForMain subs mq) : f.severity = .major := by
  simp only [patternForMain] at hf
  split at hf
  · split at hf
    · simp_all
    · simp_all
  · simp_all

/-- C2: for a top-level question of the batch, the structural pattern
detector fires exactly when the question is answered `Ya`, it has at least
two direct sub-questions, and all of them are answered `Tidak`; it emits at
most one finding, the finding is major, and it lands in the cross-validator
output. -/
theorem c2_pattern_detector (qs : List Question) (mq : Question)
    (hmem : mq ∈ qs) (hmain : mq.isSubQuestion = false) :
    (patternForMain (qs.filter fun q => q.isSubQuestion) mq ≠ [] ↔
      (mq.answer = some .ya ∧
        2 ≤ ((qs.filter fun q => q.isSubQuestion).filter
              (fun sq => sq.parentId == some mq.id)).length ∧
        ∀ sq ∈ (qs.filter fun q => q.isSubQuestion).filter
              (fun sq => sq.parentId == some mq.id),
          sq.answer = some Answer.tidak))
    ∧ (patternForMain (qs.filter fun q => q.isSubQuestion) mq).length ≤ 1
    ∧ ∀ f ∈ patternForMain (qs.filter fun q => q.isSubQuestion) mq,
        f.severity = .major ∧ f ∈ performCrossValidation qs := by
  refine ⟨patternForMain_fires_iff _ _, patternForMain_length_le _ _, ?_⟩
  intro f hf
  refine ⟨patternForMain_severity _ _ _ hf, ?_⟩
  unfold performCrossValidation
  refine List.mem_append_right _ (List.mem_flatMap.mpr ⟨mq, ?_, hf⟩)
  simp [List.mem_filter, hmem, hmain]

/-- The affirmative parent question of the C2 witness scenario. -/
def wParent : Question := ⟨"A.9", .A, none, "", false, some .ya, none⟩

/-- First negative sub-question of the C2 witness scenario. -/
def wSub1 : Question := ⟨"A.9.a", .A, some "A.9", "", true, some .tidak, none⟩

/-- Second negative sub-question of the C2 witness scenario. -/
def wSub2 : Question := ⟨"A.9.b", .A, some "A.9", "", true, some .tidak, none⟩

/-- C2 witness: an affirmative parent with two negative sub-questions. -/
theorem c2_pattern_detector_witness :
    wParent ∈ [wParent, wSub1, wSub2] ∧ wParent.isSubQuestion = false ∧
    (patternForMain ([wParent, wSub1, wSub2].filter fun q => q.isSubQuestion)
      wParent).length ≤ 1 :=
  ⟨by decide, rfl,
    (c2_pattern_detector [wParent, wSub1, wSub2] wParent (by decide) rfl).2.1⟩

lemma aspectComplianceScore_spec (yes len : Nat) :
    aspectComplianceScore yes len =
      if len = 0 then 0 else (specRoundPct yes len : Int) := by
  by_cases h : len = 0
  · simp [aspectComplianceScore, h]
  · have hpos : 0 < len := Nat.pos_of_ne_zero h
    rw [aspectComplianceScore, if_pos hpos, if_neg h]
    exact jsRound_pct _ _ hpos

lemma aspectScoreFor_cat_nil (qs : List Question) (F : List FraudFinding)
    (a : AspectCategory)
    (h : qs.filter (fun q => q.category == a && !q.isSubQuestion) = []) :
    (aspectScoreFor qs F a).totalQuestions = 0 ∧
      (aspectScoreFor qs F a).complianceScore = 0 := by
  constructor
  · show (qs.filter (fun q => q.category == a && !q.isSubQuestion)).length = 0
    rw [h]
    rfl
  · show aspectComplianceScore
      ((((qs.filter (fun q => q.category == a && !q.isSubQuestion)).filter
        (fun q => q.answer != none)).filter (fun q => q.answer == some .ya)).length)
      (((qs.filter (fun q => q.category == a && !q.isSubQuestion)).filter
        (fun q => q.answer != none)).length) = 0
    rw [h]
    simp [aspectComplianceScore]

/-- C7: aspect scores are produced for the fixed categories in declaration
order; per category only top-level questions count toward the
total/answered/yes/no tallies; and the compliance percentage is
`round(yes/answered*100)`, defined as 0 when nothing is answered.
Consequently an all-A question set gives the B, C, D entries
`totalQuestions = 0` and `complianceScore = 0`. -/
theorem c7_aggregator (qs : List Question) (rules : List FraudRule) :
    ((analyzeFraud qs rules).aspectScores.map (fun s => s.aspect)) =
      [AspectCategory.A, .B, .C, .D]
    ∧ (∀ s ∈ (analyzeFraud qs rules).aspectScores,
        s.totalQuestions =
          (qs.filter (fun q => q.category == s.aspect && !q.isSubQuestion)).length
        ∧ s.answeredQuestions =
          ((qs.filter (fun q => q.category == s.aspect && !q.isSubQuestion)).filter
            (fun q => q.answer != none)).length
        ∧ s.yesAnswers =
          (((qs.filter (fun q => q.category == s.aspect && !q.isSubQuestion)).filter
            (fun q => q.answer != none)).filter (fun q => q.answer == some .ya)).length
        ∧ s.noAnswers =
          (((qs.filter (fun q => q.category == s.aspect && !q.isSubQuestion)).filter
            (fun q => q.answer != none)).filter (fun q => q.answer == some .tidak)).length
        ∧ s.complianceScore =
          (if s.answeredQuestions = 0 then 0
            else (specRoundPct s.yesAnswers s.answeredQuestions : Int)))
    ∧ ((∀ q ∈ qs, q.category = .A) →
        ∀ s ∈ (analyzeFraud qs rules).aspectScores, s.aspect ≠ .A →
          s.totalQuestions = 0 ∧ s.complianceScore = 0) := by
  have hsc : (analyzeFraud qs rules).aspectScores =
      [AspectCategory.A, .B, .C, .D].map
        (aspectScoreFor qs
          (rules.flatMap (evalRule qs) ++ performCrossValidation qs)) := rfl
  refine ⟨?_, ?_, ?_⟩
  · rw [hsc]
    simp [aspectScoreFor]
  · intro s hs
    rw [hsc] at hs
    rcases List.mem_map.mp hs with ⟨a, _, rfl⟩
    exact ⟨rfl, rfl, rfl, rfl, aspectComplianceScore_spec _ _⟩
  · intro hA s hs hne
    rw [hsc] at hs
    rcases List.mem_map.mp hs with ⟨a, _, rfl⟩
    have hane : a ≠ AspectCategory.A := hne
    have hnil : qs.filter (fun q => q.category == a && !q.isSubQuestion) = [] := by
      rw [List.filter_eq_nil_iff]
      intro q hq
      have hcat := hA q hq
      cases a
      · exact absurd rfl hane
      all_goals simp [hcat]
    exact aspectScoreFor_cat_nil qs _ a hnil

/-- C7 witness: an all-A question set. -/
theorem c7_aggregator_witness :
    (∀ q ∈ [specQ1, specQ2], q.category = AspectCategory.A) ∧
    (∀ s ∈ (analyzeFraud [specQ1, specQ2] []).aspectScores, s.aspect ≠ .A →
      s.totalQuestions = 0 ∧ s.complianceScore = 0) :=
  ⟨by decide, (c7_aggregator [specQ1, specQ2] []).2.2 (by decide)⟩

/-- Modelled from the spec: per-category finding attribution by prefix match
of the implicated questionId on the category code. -/
def specAspectFindings (findings : List FraudFinding) (aspect : AspectCategory) :
    List FraudFinding :=
  findings.filter (fun f => jsStartsWith f.questionId aspect.code)

/-- A question whose id carries the `A` code but whose category field is `B`
(a sub-question, so it enters no per-category tally). -/
def cxQ1 : Question := ⟨"A.5", .B, none, "", true, some .ya, none⟩

/-- The matching evidence question of the C3 counterexample, also with
category field `B`. -/
def cxQ2 : Question := ⟨"A.8", .B, none, "", true, some .tidak, none⟩

/-- C3 counterexample: the aggregator attributes findings by the *category
field* of the question looked up by id, not by prefix match of the
questionId on the category code; with a question whose category field
disagrees with its id prefix the two disagree. -/
theorem c3_attribution_counterexample :
    ¬ (∀ s ∈ (analyzeFraud [cxQ1, cxQ2] []).aspectScores,
        s.findings =
          specAspectFindings (analyzeFraud [cxQ1, cxQ2] []).findings s.aspect) := by
  decide

lemma qget_mem {qs : List Question} {i : String} {q : Question}
    (h : qget qs i = some q) : q ∈ qs ∧ q.id = i := by
  unfold qget at h
  refine ⟨List.mem_reverse.mp (List.mem_of_find?_eq_some h), ?_⟩
  simpa using List.find?_some h

lemma qget_eq_some_of_exists {qs : List Question} {i : String}
    (h : ∃ q ∈ qs, q.id = i) :
    ∃ q, qget qs i = some q ∧ q ∈ qs ∧ q.id = i := by
  rcases h with ⟨q, hq, hid⟩
  have hex : ∃ x ∈ qs.reverse, (x.id == i) = true :=
    ⟨q, List.mem_reverse.mpr hq, by simp [hid]⟩
  have hs : (qs.reverse.find? (fun x => x.id == i)).isSome := List.find?_isSome.mpr hex
  rcases Option.isSome_iff_exists.mp hs with ⟨q', hq'⟩
  have hget : qget qs i = some q' := hq'
  exact ⟨q', hget, (qget_mem hget).1, (qget_mem hget).2⟩

lemma evalRule_qid {qs : List Question} {r : FraudRule} {f : FraudFinding}
    (hf : f ∈ evalRule qs r) : ∃ q ∈ qs, q.id = f.questionId := by
  unfold evalRule at hf
  split at hf
  case h_1 cq eqq hc he =>
    split at hf
    · split at hf
      · have hfe : f = mkRuleFinding r cq eqq := by
          simp at hf
          exact hf.2
        exact ⟨cq, (qget_mem hc).1, by rw [hfe]; rfl⟩
      · have hfe : f = mkRuleFinding r cq eqq := by
          simp at hf
          exact hf.2
        exact ⟨cq, (qget_mem hc).1, by rw [hfe]; rfl⟩
    · simp at hf
  case h_2 => simp at hf

lemma evalCrossRule_qid {qs : List Question} {r : CrossRule} {f : FraudFinding}
    (hf : f ∈ evalCrossRule qs r) : ∃ q ∈ qs, q.id = f.questionId := by
  unfold evalCrossRule at hf
  split at hf
  case h_1 cq eqq hc he =>
    split at hf
    · have hfe := List.mem_singleton.mp hf
      refine ⟨cq, (qget_mem hc).1, ?_⟩
      rw [hfe]
      exact (qget_mem hc).2
    · simp at hf
  case h_2 => simp at hf

lemma patternForMain_qid {subs : List Question} {mq : Question} {f : FraudFinding}
    (hf : f ∈ patternForMain subs mq) : f.questionId = mq.id := by
  simp only [patternForMain] at hf
  split at hf
  · split at hf
    · simp_all
    · simp_all
  · simp_all

lemma performCrossValidation_qid {qs : List Question} {f : FraudFinding}
    (hf : f ∈ performCrossValidation qs) : ∃ q ∈ qs, q.id = f.questionId := by
  unfold performCrossValidation at hf
  rcases List.mem_append.mp hf with hf | hf
  · rcases List.mem_flatMap.mp hf with ⟨r, _, hfr⟩
    exact evalCrossRule_qid hfr
  · rcases List.mem_flatMap.mp hf with ⟨mq, hmq, hfm⟩
    exact ⟨mq, (List.mem_filter.mp hmq).1, (patternForMain_qid hfm).symm⟩

lemma analyzeFraud_qid {qs : List Question} {rules : List FraudRule} {f : FraudFinding}
    (hf : f ∈ (analyzeFraud qs rules).findings) : ∃ q ∈ qs, q.id = f.questionId := by
  have hmem : f ∈ rules.flatMap (evalRule qs) ++ performCrossValidation qs := hf
  rcases List.mem_append.mp hmem with h | h
  · rcases List.mem_flatMap.mp h with ⟨r, _, hfr⟩
    exact evalRule_qid hfr
  · exact performCrossValidation_qid h

/-- The character of a category code. -/
def AspectCategory.codeChar : AspectCategory → Char
  | .A => 'A'
  | .B => 'B'
  | .C => 'C'
  | .D => 'D'

lemma code_data (a : AspectCategory) : a.code.data = [a.codeChar] := by
  cases a <;> rfl

lemma jsStartsWith_code (s : String) (a : AspectCategory) :
    jsStartsWith s a.code =
      match s.data with
      | [] => false
      | c :: _ => a.codeChar == c := by
  unfold jsStartsWith
  rw [code_data]
  cases s.data with
  | nil => rfl
  | cons c cs => simp [List.isPrefixOf]

lemma category_pred_eq {qs : List Question}
    (hcoh : ∀ q ∈ qs, jsStartsWith q.id q.category.code = true)
    (a : AspectCategory) (f : FraudFinding)
    (hexists : ∃ q ∈ qs, q.id = f.questionId) :
    (match qget qs f.questionId with
      | some q => q.category == a
      | none => false) = jsStartsWith f.questionId a.code := by
  rcases qget_eq_some_of_exists hexists with ⟨q, hget, hqmem, hqid⟩
  have hq := hcoh q hqmem
  rw [jsStartsWith_code] at hq
  rw [hget]
  show (q.category == a) = jsStartsWith f.questionId a.code
  rw [jsStartsWith_code, ← hqid]
  cases hd : q.id.data with
  | nil =>
    rw [hd] at hq
    simp at hq
  | cons c cs =>
    rw [hd] at hq
    have hc : q.category.codeChar = c := by simpa using hq
    show (q.category == a) = (a.codeChar == c)
    rw [← hc]
    cases hqc : q.category <;> cases a <;> decide

/-- C3 amended: the aggregator attributes to each category exactly the
findings whose implicated questionId resolves, by exact id lookup, to a
question whose category field equals the category; whenever every question
id starts with its own category code, this coincides with the prefix-match
description. -/
theorem c3_attribution_amended (qs : List Question) (rules : List FraudRule)
    (hcoh : ∀ q ∈ qs, jsStartsWith q.id q.category.code = true) :
    ∀ s ∈ (analyzeFraud qs rules).aspectScores,
      s.findings = specAspectFindings (analyzeFraud qs rules).findings s.aspect := by
  have hsc : (analyzeFraud qs rules).aspectScores =
      [AspectCategory.A, .B, .C, .D].map
        (aspectScoreFor qs
          (rules.flatMap (evalRule qs) ++ performCrossValidation qs)) := rfl
  intro s hs
  rw [hsc] at hs
  rcases List.mem_map.mp hs with ⟨a, _, rfl⟩
  show (rules.flatMap (evalRule qs) ++ performCrossValidation qs).filter _ =
    (rules.flatMap (evalRule qs) ++ performCrossValidation qs).filter _
  apply List.filter_congr
  intro f hf
  exact category_pred_eq hcoh a f (@analyzeFraud_qid qs rules f hf)

/-- C3 amended witness: a coherent question set where every id starts with
its category code. -/
theorem c3_attribution_amended_witness :
    (∀ q ∈ [specQ1, specQ2], jsStartsWith q.id q.category.code = true) ∧
    (∀ s ∈ (analyzeFraud [specQ1, specQ2] []).aspectScores,
      s.findings =
        specAspectFindings (analyzeFraud [specQ1, specQ2] []).findings s.aspect) :=
  ⟨by decide, c3_attribution_amended [specQ1, specQ2] [] (by decide)⟩

end ComplianceIT
